import Mathlib

/-!
Verification development for the backman backup/restore control plane.

The Go sources under scrutiny are embedded shallowly:

* `src/service/redis/restore.go` — the redis executor's `Restore`;
* `src/router/api/backup.go`     — the HTTP API handlers (`CreateBackup`,
  `DeleteBackup`, …);
* `src/router/ui/handler.go`     — the UI handler, basic-auth check and
  error handler;
* `src/config/config.go`         — layered configuration resolution
  (`new`, the env-overlay merge).

Machine integers are modelled as `Nat`/`Int`; Go maps as association
lists or option-valued functions with Go's zero-value semantics for a
missing key; fallible code returns `Except`.  The `state` package of the
repository is not part of the given sources, so the state-tracker
operations used by the embedded code are modelled from the spec and
marked as such in their doc comments.
-/

namespace Backman

/-! ## State tracker data model (spec §3, §4.1) -/

/-- Operation kind: a backup or a restore job. -/
inductive Kind where
  | backup
  | restore
deriving DecidableEq, Repr

/-- Operation phase, per the spec state machine
`idle → queued → running → \x7bsucceeded, failed\x7d`. -/
inductive Phase where
  | idle
  | queued
  | running
  | succeeded
  | failed
deriving DecidableEq, Repr

/-- Per-service operation status, keyed by (type, name). -/
structure OperationState where
  kind : Kind
  phase : Phase
  lastError : Option String
deriving DecidableEq, Repr

/-- The resting state of a service never reserved. -/
def OperationState.idle : OperationState :=
  { kind := Kind.backup, phase := Phase.idle, lastError := none }

/-- Service identity key = (type, name). -/
abbrev ServiceKey := String × String

/-- The tracker's map from service identity to operation status. -/
abbrev StateMap := List (ServiceKey × OperationState)

/-- Read a service's status; a never-reserved key reads as idle. -/
def query (st : StateMap) (k : ServiceKey) : OperationState :=
  match st.find? (fun e => e.1 = k) with
  | some e => e.2
  | none => OperationState.idle

/-- Overwrite a service's status. -/
def setState (st : StateMap) (k : ServiceKey) (o : OperationState) : StateMap :=
  (k, o) :: st.filter (fun e => ¬ e.1 = k)

/-- A phase counts as in-flight when it is queued or running. -/
def inFlight (p : Phase) : Bool :=
  match p with
  | Phase.queued => true
  | Phase.running => true
  | _ => false

/-- Modelled from the spec: the `state` package is not among the given
sources.  `Reserve(serviceKey, kind)` fails with `BusyError` if the key
is already queued/running, otherwise atomically overwrites the entry
with phase=queued (spec §4.1). -/
def Reserve (st : StateMap) (k : ServiceKey) (kind : Kind) :
    Except String StateMap :=
  if inFlight (query st k).phase then
    Except.error "BusyError"
  else
    Except.ok (setState st k { kind := kind, phase := Phase.queued, lastError := none })

/-- Modelled from the spec: `state.RestoreQueue(service)` moves the
service's restore operation to the queued phase (spec §4.1 Reserve /
state machine). -/
def RestoreQueue (st : StateMap) (k : ServiceKey) : StateMap :=
  setState st k { kind := Kind.restore, phase := Phase.queued, lastError := none }

/-- Modelled from the spec: `state.RestoreFailure(service, filename)`
records the terminal failed phase for the service's restore operation
(spec §4.1 MarkFailed). -/
def RestoreFailure (st : StateMap) (k : ServiceKey) (filename : String) : StateMap :=
  setState st k
    { kind := Kind.restore, phase := Phase.failed
      lastError := some ("restore failed: " ++ filename) }

/-! ## The redis executor's `Restore` (src/service/redis/restore.go) -/

/-- Model of Go `path/filepath.Base` for slash-separated paths: empty
path gives ".", trailing separators are removed, the last element is
returned, and an all-separator path gives "/". -/
def filepathBase (path : String) : String :=
  if path.isEmpty then "." else
  let cs := (path.toList.reverse.dropWhile (fun c => c = '/')).reverse
  if cs.isEmpty then "/" else
  String.mk (cs.reverse.takeWhile (fun c => ¬ c = '/')).reverse

namespace redis

/-- Embedding of `redis.Restore` (src/service/redis/restore.go:15-23):
it queues the restore in the tracker, logs, marks the restore failed
with the artifact's base filename, and returns the error
"redis restore: unsupported".  The context, s3 client and binding
arguments are irrelevant to its behaviour and omitted. -/
def Restore (st : StateMap) (k : ServiceKey) (objectPath : String) :
    StateMap × Except String Unit :=
  let st1 := RestoreQueue st k
  let filename := filepathBase objectPath
  let st2 := RestoreFailure st1 k filename
  (st2, Except.error "redis restore: unsupported")

end redis

end Backman

/-! ## Claims C1 and C2 -/

namespace Backman

/-- C1 as stated is false: the redis `Restore` does not leave the
per-service operation state unchanged.  On an idle tracker, restoring
the redis service ("redis", "my-redis") changes the state: afterwards
the key's phase is `failed` (having passed through `queued` via
`state.RestoreQueue`), not `idle`. -/
theorem c1_counterexample :
    query (redis.Restore [] ("redis", "my-redis") "backups/dump.rdb").1
        ("redis", "my-redis") ≠ OperationState.idle := by
  decide

/-- C1 (amended): every restore against the redis executor fails with
the unsupported error, but the per-service operation state is not left
unchanged: `Restore` first transitions the key to the queued phase
(via `state.RestoreQueue`) and then to the terminal failed phase (via
`state.RestoreFailure`), so the final phase is `failed`; it never
reaches `running` or `succeeded`. -/
theorem c1_redis_restore_transitions (st : StateMap) (k : ServiceKey)
    (objectPath : String) :
    (redis.Restore st k objectPath).2 = Except.error "redis restore: unsupported"
    ∧ (query (RestoreQueue st k) k).phase = Phase.queued
    ∧ (query (redis.Restore st k objectPath).1 k).phase = Phase.failed := by
  refine ⟨rfl, ?_, ?_⟩
  · simp [RestoreQueue, query, setState]
  · simp [redis.Restore, RestoreFailure, query, setState]

/-- C2: for every tracker state, service key and object path, the redis
executor's `Restore` performs no restore work and deterministically
returns the non-nil error "redis restore: unsupported". -/
theorem c2_redis_restore_unsupported (st : StateMap) (k : ServiceKey)
    (objectPath : String) :
    (redis.Restore st k objectPath).2 = Except.error "redis restore: unsupported" := by
  rfl

/-! ## Claim C3: single-flight reservation (spec §4.1, §5, §8) -/

/-- Modelled from the spec: `MarkSucceeded(handle, artifactName)` moves
the operation to the terminal succeeded phase (spec §4.1); the `state`
package is not among the given sources. -/
def MarkSucceeded (st : StateMap) (k : ServiceKey) : StateMap :=
  setState st k { kind := (query st k).kind, phase := Phase.succeeded, lastError := none }

/-- Any interleaving of `n` concurrent `Reserve` calls on one key is,
because `Reserve` is an atomic check-and-set under the tracker's lock
(spec §5), some sequential order of the `n` atomic operations; this
function runs them in sequence and records each caller's outcome
(`true` = reservation granted, `false` = `BusyError`). -/
def reserveSeq (st : StateMap) (k : ServiceKey) (kind : Kind) :
    Nat → StateMap × List Bool
  | 0 => (st, [])
  | n + 1 =>
    match Reserve st k kind with
    | Except.ok st1 =>
        let r := reserveSeq st1 k kind n
        (r.1, true :: r.2)
    | Except.error _ =>
        let r := reserveSeq st k kind n
        (r.1, false :: r.2)

theorem query_setState (st : StateMap) (k : ServiceKey) (o : OperationState) :
    query (setState st k o) k = o := by
  simp [query, setState]

theorem reserveSeq_busy (k : ServiceKey) (kind : Kind) (n : Nat) :
    ∀ st : StateMap, inFlight (query st k).phase = true →
      reserveSeq st k kind n = (st, List.replicate n false) := by
  induction n with
  | zero => intro st _; rfl
  | succ m ih =>
      intro st h
      simp only [reserveSeq, Reserve, h, if_true]
      rw [ih st h]
      rfl

/-- C3: for any service key, any number of concurrent `CreateBackup`
reservation attempts, serialized in any order by the tracker's atomic
check-and-set, yield exactly one success; every other caller receives
`BusyError` as long as the winner has not reached a terminal phase, and
once the winner's operation is marked terminal a fresh `Reserve`
succeeds again. -/
theorem c3_single_flight (st : StateMap) (k : ServiceKey) (kind kind2 : Kind)
    (n : Nat) (hidle : inFlight (query st k).phase = false) (hn : 1 ≤ n) :
    (reserveSeq st k kind n).2.length = n
    ∧ (reserveSeq st k kind n).2.count true = 1
    ∧ (Reserve (MarkSucceeded (reserveSeq st k kind n).1 k) k kind2).isOk = true := by
  obtain ⟨m, rfl⟩ : ∃ m, n = m + 1 := ⟨n - 1, (Nat.succ_pred_eq_of_pos hn).symm⟩
  have hres : Reserve st k kind
      = Except.ok (setState st k
          { kind := kind, phase := Phase.queued, lastError := none }) := by
    simp [Reserve, hidle]
  have hqueued :
      inFlight (query (setState st k
        { kind := kind, phase := Phase.queued, lastError := none }) k).phase = true := by
    rw [query_setState]; rfl
  have hrest := reserveSeq_busy k kind m _ hqueued
  have hstep : reserveSeq st k kind (m + 1)
      = ((setState st k { kind := kind, phase := Phase.queued, lastError := none }),
          true :: List.replicate m false) := by
    simp only [reserveSeq, hres]
    rw [hrest]
  refine ⟨?_, ?_, ?_⟩
  · rw [hstep]; simp
  · rw [hstep]
    simp [List.count_cons, List.count_replicate]
  · rw [hstep]
    simp [Reserve, MarkSucceeded, query_setState, inFlight, Except.isOk, Except.toBool]

/-- Witness for C3 at a concrete input: three concurrent reservation
attempts on an idle key grant exactly one. -/
theorem c3_single_flight_witness :
    inFlight (query ([] : StateMap) ("postgres", "db1")).phase = false
    ∧ 1 ≤ 3
    ∧ ((reserveSeq [] ("postgres", "db1") Kind.backup 3).2.length = 3
        ∧ (reserveSeq [] ("postgres", "db1") Kind.backup 3).2.count true = 1
        ∧ (Reserve (MarkSucceeded (reserveSeq [] ("postgres", "db1") Kind.backup 3).1
            ("postgres", "db1")) ("postgres", "db1") Kind.backup).isOk = true) :=
  ⟨by decide, by decide,
    c3_single_flight [] ("postgres", "db1") Kind.backup Kind.backup 3 (by decide) (by decide)⟩

/-! ## HTTP API handlers (src/router/api/backup.go) -/

namespace api

/-- Service instance as seen by the handlers (the `service` package is
not among the given sources; the handlers use only its name and type). -/
structure ServiceInstance where
  serviceType : String
  name : String
deriving DecidableEq, Repr

/-- Response body as serialized by echo's `c.JSON`: either a plain
string (error messages) or the API projection of a service descriptor
(`getAPIService`). -/
inductive Body where
  | text (s : String)
  | service (s : ServiceInstance)
  | empty
deriving DecidableEq, Repr

/-- An echo handler response: JSON with a status code, or no content. -/
inductive Response where
  | json (status : Nat) (body : Body)
  | noContent (status : Nat)
deriving DecidableEq, Repr

/-- HTTP status code of a response. -/
def Response.status : Response → Nat
  | Response.json s _ => s
  | Response.noContent s => s

/-- Errors surfaced by `service.DeleteBackup` (spec §7 taxonomy). -/
inductive ServiceError where
  | notFound
  | storage (msg : String)
deriving DecidableEq, Repr

/-- Modelled from the spec: the rendering of a `service` package error
via Go `err.Error()` (the `service` package is not among the given
sources). -/
def ServiceError.message : ServiceError → String
  | ServiceError.notFound => "NotFoundError"
  | ServiceError.storage m => m

/-- External collaborators the handlers call; none of them is among the
given sources, so each is an abstract parameter of the embedding:
`unescape` is `url.QueryUnescape`, `isValidServiceType` is
`config.IsValidServiceType`, `getService` is `service.GetService`
(returning the zero-valued instance when the service is unknown),
`runBackup` is the asynchronous `service.CreateBackup` job acting on
the tracker, `deleteBackup` is `service.DeleteBackup`. -/
structure Env where
  unescape : String → Except String String
  isValidServiceType : String → Bool
  getService : String → String → ServiceInstance
  runBackup : StateMap → ServiceInstance → StateMap × Except String Unit
  deleteBackup : String → String → String → Except ServiceError Unit

/-- What one handler invocation produced: the HTTP response, whether an
asynchronous backup task was launched, and the tracker state once any
launched task has run. -/
structure HandlerOutcome where
  response : Response
  taskStarted : Bool
  tracker : StateMap
deriving Repr

/-- Embedding of `Handler.CreateBackup` (src/router/api/backup.go:151-176):
unescape the service name (400 on failure), reject an unrecognized
service type with 400, reject an unknown service with 404, and
otherwise launch the backup asynchronously and reply 202 with the
service descriptor.  The goroutine's work is recorded in `tracker`;
its error is only logged and never reaches the response. -/
def CreateBackup (env : Env) (st : StateMap)
    (serviceTypeParam serviceNameParam : String) : HandlerOutcome :=
  match env.unescape serviceNameParam with
  | Except.error e =>
      { response := Response.json 400 (Body.text ("invalid service name: " ++ e))
        taskStarted := false, tracker := st }
  | Except.ok serviceName =>
      if ¬ env.isValidServiceType serviceTypeParam then
        { response := Response.json 400
            (Body.text ("unsupported service type: " ++ serviceTypeParam))
          taskStarted := false, tracker := st }
      else
        let inst := env.getService serviceTypeParam serviceName
        if inst.name.length = 0 then
          { response := Response.json 404
              (Body.text ("could not find service [" ++ serviceName ++ "] to backup"))
            taskStarted := false, tracker := st }
        else
          { response := Response.json 202 (Body.service inst)
            taskStarted := true
            tracker := (env.runBackup st inst).1 }

/-- Embedding of `Handler.DeleteBackup` (src/router/api/backup.go:219-236):
unescape name and filename (400 on failure), call
`service.DeleteBackup`, answer 500 with the error's message on any
error, else 204 No Content. -/
def DeleteBackup (env : Env)
    (serviceTypeParam serviceNameParam fileParam : String) : Response :=
  match env.unescape serviceNameParam with
  | Except.error e => Response.json 400 (Body.text ("invalid service name: " ++ e))
  | Except.ok serviceName =>
      match env.unescape fileParam with
      | Except.error e => Response.json 400 (Body.text ("invalid filename: " ++ e))
      | Except.ok filename =>
          match env.deleteBackup serviceTypeParam serviceName filename with
          | Except.error e => Response.json 500 (Body.text e.message)
          | Except.ok _ => Response.noContent 204

/-- Modelled from the spec: `service.DeleteBackup` performs a direct
catalog delete by key and fails with `NotFoundError` if the key does
not exist, independent of the state tracker (spec §4.2, §4.4; the
`service` and `s3` packages are not among the given sources).  On
success it returns the catalog without the key; on not-found it
returns an error and the catalog is untouched. -/
def catalogDelete (catalog : List String) (key : String) :
    Except ServiceError (List String) :=
  if key ∈ catalog then Except.ok (catalog.erase key)
  else Except.error ServiceError.notFound

end api

end Backman

/-! ## Claims C4, C5 and C6 -/

namespace Backman
namespace api

/-- C4: when validation succeeds (name unescapes, the type is
recognized, the service exists), `CreateBackup` answers 202 Accepted
with the service descriptor and launches the backup task; the response
is the same whatever the asynchronous job does (swapping the job
function changes nothing in the response). -/
theorem c4_create_backup_accepted (env : Env)
    (f : StateMap → ServiceInstance → StateMap × Except String Unit)
    (st : StateMap) (t p name : String)
    (h1 : env.unescape p = Except.ok name)
    (h2 : env.isValidServiceType t = true)
    (h3 : ¬ (env.getService t name).name.length = 0) :
    (CreateBackup env st t p).response
        = Response.json 202 (Body.service (env.getService t name))
    ∧ (CreateBackup env st t p).taskStarted = true
    ∧ (CreateBackup { env with runBackup := f } st t p).response
        = (CreateBackup env st t p).response := by
  have h1f : { env with runBackup := f }.unescape p = Except.ok name := h1
  refine ⟨?_, ?_, ?_⟩ <;>
    simp [CreateBackup, h1, h1f, h2, h3]

/-- Witness for C4 at a concrete environment and request. -/
theorem c4_create_backup_accepted_witness :
    let env : Env :=
      { unescape := fun s => Except.ok s
        isValidServiceType := fun t => t = "postgres"
        getService := fun t n => { serviceType := t, name := n }
        runBackup := fun st _ => (st, Except.ok ())
        deleteBackup := fun _ _ _ => Except.ok () }
    (CreateBackup env [] "postgres" "db1").response
        = Response.json 202 (Body.service (env.getService "postgres" "db1"))
    ∧ (CreateBackup env [] "postgres" "db1").taskStarted = true
    ∧ (CreateBackup { env with runBackup := fun st _ => (st, Except.error "boom") }
        [] "postgres" "db1").response
        = (CreateBackup env [] "postgres" "db1").response := by
  intro env
  exact c4_create_backup_accepted env (fun st _ => (st, Except.error "boom"))
    [] "postgres" "db1" "db1" rfl (by decide) (by decide)

/-- C5: the POST backup handler validates synchronously before any
work: an unrecognized service type gets 400 and an unknown service
(with a recognized type) gets 404; in both cases no backup task is
started and the tracker state is exactly the input state. -/
theorem c5_create_backup_validation (env : Env) (st : StateMap) (t p name : String)
    (h1 : env.unescape p = Except.ok name) :
    (env.isValidServiceType t = false →
      (CreateBackup env st t p).response
          = Response.json 400 (Body.text ("unsupported service type: " ++ t))
      ∧ (CreateBackup env st t p).taskStarted = false
      ∧ (CreateBackup env st t p).tracker = st)
    ∧ (env.isValidServiceType t = true → (env.getService t name).name.length = 0 →
      (CreateBackup env st t p).response
          = Response.json 404
              (Body.text ("could not find service [" ++ name ++ "] to backup"))
      ∧ (CreateBackup env st t p).taskStarted = false
      ∧ (CreateBackup env st t p).tracker = st) := by
  constructor
  · intro hbad
    refine ⟨?_, ?_, ?_⟩ <;> simp [CreateBackup, h1, hbad]
  · intro hok hmissing
    refine ⟨?_, ?_, ?_⟩ <;> simp [CreateBackup, h1, hok, hmissing]

/-- Witness for C5 at a concrete environment: an unknown type gets 400
and an unknown service of a known type gets 404, touching nothing. -/
theorem c5_create_backup_validation_witness :
    let env : Env :=
      { unescape := fun s => Except.ok s
        isValidServiceType := fun t => t = "postgres"
        getService := fun t n => if n = "db1" then { serviceType := t, name := n }
          else { serviceType := "", name := "" }
        runBackup := fun st _ => (st, Except.ok ())
        deleteBackup := fun _ _ _ => Except.ok () }
    ((env.isValidServiceType "oracle" = false →
      (CreateBackup env [] "oracle" "db1").response
          = Response.json 400 (Body.text ("unsupported service type: " ++ "oracle"))
      ∧ (CreateBackup env [] "oracle" "db1").taskStarted = false
      ∧ (CreateBackup env [] "oracle" "db1").tracker = [])
    ∧ (env.isValidServiceType "oracle" = true →
        (env.getService "oracle" "db1").name.length = 0 →
      (CreateBackup env [] "oracle" "db1").response
          = Response.json 404
              (Body.text ("could not find service [" ++ "db1" ++ "] to backup"))
      ∧ (CreateBackup env [] "oracle" "db1").taskStarted = false
      ∧ (CreateBackup env [] "oracle" "db1").tracker = []))
    ∧ ((env.isValidServiceType "postgres" = false →
      (CreateBackup env [] "postgres" "db9").response
          = Response.json 400 (Body.text ("unsupported service type: " ++ "postgres"))
      ∧ (CreateBackup env [] "postgres" "db9").taskStarted = false
      ∧ (CreateBackup env [] "postgres" "db9").tracker = [])
    ∧ (env.isValidServiceType "postgres" = true →
        (env.getService "postgres" "db9").name.length = 0 →
      (CreateBackup env [] "postgres" "db9").response
          = Response.json 404
              (Body.text ("could not find service [" ++ "db9" ++ "] to backup"))
      ∧ (CreateBackup env [] "postgres" "db9").taskStarted = false
      ∧ (CreateBackup env [] "postgres" "db9").tracker = [])) := by
  intro env
  exact ⟨c5_create_backup_validation env [] "oracle" "db1" "db1" rfl,
    c5_create_backup_validation env [] "postgres" "db9" "db9" rfl⟩

/-- C6 as stated is false: the HTTP DELETE handler does not distinguish
the not-found case from a 500 storage failure.  With a delete that
fails with `NotFoundError` the handler answers status 500 — the same
status it gives a storage failure — rather than mapping not-found to a
distinct status. -/
theorem c6_counterexample :
    (DeleteBackup
      { unescape := fun s => Except.ok s
        isValidServiceType := fun _ => true
        getService := fun t n => { serviceType := t, name := n }
        runBackup := fun st _ => (st, Except.ok ())
        deleteBackup := fun _ _ _ => Except.error ServiceError.notFound }
      "postgres" "db1" "missing.gz").status = 500
    ∧ (DeleteBackup
      { unescape := fun s => Except.ok s
        isValidServiceType := fun _ => true
        getService := fun t n => { serviceType := t, name := n }
        runBackup := fun st _ => (st, Except.ok ())
        deleteBackup := fun _ _ _ => Except.error (ServiceError.storage "s3 down") }
      "postgres" "db1" "missing.gz").status = 500 := by
  constructor <;> rfl

/-- C6 (amended): deleting a nonexistent artifact key fails with
`NotFoundError` at the service layer and leaves the catalog untouched
(no partial side effect), but the HTTP DELETE handler maps every error
from the delete — the not-found case included — to 500 Internal Server
Error with the error's message; it does not give not-found a distinct
status. -/
theorem c6_delete_not_found (catalog : List String) (key : String)
    (env : Env) (t p f name filename : String) (e : ServiceError)
    (hmiss : ¬ key ∈ catalog)
    (h1 : env.unescape p = Except.ok name)
    (h2 : env.unescape f = Except.ok filename)
    (h3 : env.deleteBackup t name filename = Except.error e) :
    catalogDelete catalog key = Except.error ServiceError.notFound
    ∧ DeleteBackup env t p f = Response.json 500 (Body.text e.message) := by
  constructor
  · simp [catalogDelete, hmiss]
  · simp [DeleteBackup, h1, h2, h3]

/-- Witness for the amended C6 at a concrete catalog and environment. -/
theorem c6_delete_not_found_witness :
    ¬ "b.gz" ∈ ["a.gz"]
    ∧ (catalogDelete ["a.gz"] "b.gz" = Except.error ServiceError.notFound
      ∧ DeleteBackup
          { unescape := fun s => Except.ok s
            isValidServiceType := fun _ => true
            getService := fun ty n => { serviceType := ty, name := n }
            runBackup := fun st _ => (st, Except.ok ())
            deleteBackup := fun _ _ _ => Except.error ServiceError.notFound }
          "postgres" "db1" "b.gz"
        = Response.json 500 (Body.text ServiceError.notFound.message)) :=
  ⟨by decide,
    c6_delete_not_found ["a.gz"] "b.gz"
      { unescape := fun s => Except.ok s
        isValidServiceType := fun _ => true
        getService := fun ty n => { serviceType := ty, name := n }
        runBackup := fun st _ => (st, Except.ok ())
        deleteBackup := fun _ _ _ => Except.error ServiceError.notFound }
      "postgres" "db1" "b.gz" "db1" "b.gz" ServiceError.notFound
      (by decide) rfl rfl rfl⟩

end api
end Backman

/-! ## Configuration resolution (src/config/config.go) -/

namespace Backman
namespace config

/-- Teams webhook notification settings. -/
structure TeamsNotificationConfig where
  Webhook : String
  Events : List String
deriving DecidableEq, Repr

/-- Notification settings. -/
structure NotificationConfig where
  Teams : TeamsNotificationConfig
deriving DecidableEq, Repr

/-- S3 object-storage settings (src/config/config.go:35-48). -/
structure S3Config where
  DisableSSL : Bool
  SkipSSLVerification : Bool
  ServiceType : String
  ServiceLabel : String
  ServiceName : String
  BucketName : String
  EncryptionKey : String
  Host : String
  AccessKey : String
  SecretKey : String
deriving DecidableEq, Repr

/-- Per-service retention bounds. -/
structure RetentionConfig where
  Days : Int
  Files : Int
deriving DecidableEq, Repr

/-- Per-service binding settings; the `Service` struct declaration is
not among the given sources, so the fields are exactly those the merge
in src/config/config.go:212-235 reads and writes (`type` stands for the
Go field `Type`). -/
structure ServiceBinding where
  type : String
  Provider : String
  Host : String
  Port : Int
  URI : String
  Username : String
  Password : String
  Database : String
deriving DecidableEq, Repr

/-- Per-service settings; fields are those the merge in
src/config/config.go:172-238 reads and writes.  `Timeout` is a Go
`time.Duration` in nanoseconds. -/
structure Service where
  Schedule : String
  Timeout : Int
  Retention : RetentionConfig
  DirectS3 : Bool
  DisableColumnStatistics : Bool
  LogStdErr : Bool
  ForceImport : Bool
  LocalBackupPath : String
  IgnoreTables : List String
  BackupOptions : List String
  RestoreOptions : List String
  Binding : ServiceBinding
deriving DecidableEq, Repr

/-- Top-level configuration (src/config/config.go:19-33); `Services`
is the Go map modelled as an association list. -/
structure Config where
  Port : Int
  LogLevel : String
  LoggingTimestamp : Bool
  Username : String
  Password : String
  DisableWeb : Bool
  DisableMetrics : Bool
  DisableRestore : Bool
  UnprotectedMetrics : Bool
  Notifications : NotificationConfig
  S3 : S3Config
  Services : List (String × Service)
  Foreground : Bool
deriving DecidableEq, Repr

/-- Go zero value of `ServiceBinding`. -/
def ServiceBinding.zero : ServiceBinding :=
  { type := "", Provider := "", Host := "", Port := 0, URI := ""
    Username := "", Password := "", Database := "" }

/-- Go zero value of `Service`. -/
def Service.zero : Service :=
  { Schedule := "", Timeout := 0, Retention := { Days := 0, Files := 0 }
    DirectS3 := false, DisableColumnStatistics := false, LogStdErr := false
    ForceImport := false, LocalBackupPath := "", IgnoreTables := []
    BackupOptions := [], RestoreOptions := [], Binding := ServiceBinding.zero }

/-- Go zero value of `Config` (the struct `new` starts from at
src/config/config.go:76-78). -/
def Config.zero : Config :=
  { Port := 0, LogLevel := "", LoggingTimestamp := false, Username := ""
    Password := "", DisableWeb := false, DisableMetrics := false
    DisableRestore := false, UnprotectedMetrics := false
    Notifications := { Teams := { Webhook := "", Events := [] } }
    S3 := { DisableSSL := false, SkipSSLVerification := false, ServiceType := ""
            ServiceLabel := "", ServiceName := "", BucketName := ""
            EncryptionKey := "", Host := "", AccessKey := "", SecretKey := "" }
    Services := [], Foreground := false }

/-- Go map read `config.Services[serviceName]`: zero value on a
missing key. -/
def mapGet (m : List (String × Service)) (n : String) : Service :=
  match m.find? (fun e => e.1 = n) with
  | some e => e.2
  | none => Service.zero

/-- Go map write `config.Services[serviceName] = v`. -/
def mapSet (m : List (String × Service)) (n : String) (s : Service) :
    List (String × Service) :=
  (n, s) :: m.filter (fun e => ¬ e.1 = n)

/-- One iteration of the services loop
(src/config/config.go:172-237): overlay one env-provided service
config onto the file-provided one, field by field, each guarded by the
env value being non-zero; the timeout is taken only when
`Timeout.Seconds() > 1`, i.e. strictly above 10^9 nanoseconds. -/
def mergeService (merged sc : Service) : Service :=
  { Schedule := if 0 < sc.Schedule.length then sc.Schedule else merged.Schedule
    Timeout := if 1000000000 < sc.Timeout then sc.Timeout else merged.Timeout
    Retention :=
      { Days := if 0 < sc.Retention.Days then sc.Retention.Days
          else merged.Retention.Days
        Files := if 0 < sc.Retention.Files then sc.Retention.Files
          else merged.Retention.Files }
    DirectS3 := if sc.DirectS3 then sc.DirectS3 else merged.DirectS3
    DisableColumnStatistics := if sc.DisableColumnStatistics
      then sc.DisableColumnStatistics else merged.DisableColumnStatistics
    LogStdErr := if sc.LogStdErr then sc.LogStdErr else merged.LogStdErr
    ForceImport := if sc.ForceImport then sc.ForceImport else merged.ForceImport
    LocalBackupPath := if 0 < sc.LocalBackupPath.length then sc.LocalBackupPath
      else merged.LocalBackupPath
    IgnoreTables := if 0 < sc.IgnoreTables.length then sc.IgnoreTables
      else merged.IgnoreTables
    BackupOptions := if 0 < sc.BackupOptions.length then sc.BackupOptions
      else merged.BackupOptions
    RestoreOptions := if 0 < sc.RestoreOptions.length then sc.RestoreOptions
      else merged.RestoreOptions
    Binding :=
      { type := if 0 < sc.Binding.type.length then sc.Binding.type
          else merged.Binding.type
        Provider := if 0 < sc.Binding.Provider.length then sc.Binding.Provider
          else merged.Binding.Provider
        Host := if 0 < sc.Binding.Host.length then sc.Binding.Host
          else merged.Binding.Host
        Port := if 0 < sc.Binding.Port then sc.Binding.Port
          else merged.Binding.Port
        URI := if 0 < sc.Binding.URI.length then sc.Binding.URI
          else merged.Binding.URI
        Username := if 0 < sc.Binding.Username.length then sc.Binding.Username
          else merged.Binding.Username
        Password := if 0 < sc.Binding.Password.length then sc.Binding.Password
          else merged.Binding.Password
        Database := if 0 < sc.Binding.Database.length then sc.Binding.Database
          else merged.Binding.Database } }

/-- The services loop of the env overlay
(src/config/config.go:172-238): for each env-provided service, read
the current entry (zero value if absent), merge, write back. -/
def mergeServices (m : List (String × Service))
    (entries : List (String × Service)) : List (String × Service) :=
  entries.foldl (fun acc p => mapSet acc p.1 (mergeService (mapGet acc p.1) p.2)) m

/-- The env-variable overlay (src/config/config.go:102-239): each
top-level setting is taken from the env config only when its env value
is non-zero (non-empty string, positive number, true boolean), then
the services loop runs. -/
def mergeEnv (cfg envConfig : Config) : Config :=
  { Port := if 0 < envConfig.Port then envConfig.Port else cfg.Port
    LogLevel := if 0 < envConfig.LogLevel.length then envConfig.LogLevel
      else cfg.LogLevel
    LoggingTimestamp := if envConfig.LoggingTimestamp then envConfig.LoggingTimestamp
      else cfg.LoggingTimestamp
    Username := if 0 < envConfig.Username.length then envConfig.Username
      else cfg.Username
    Password := if 0 < envConfig.Password.length then envConfig.Password
      else cfg.Password
    DisableWeb := if envConfig.DisableWeb then envConfig.DisableWeb
      else cfg.DisableWeb
    DisableMetrics := if envConfig.DisableMetrics then envConfig.DisableMetrics
      else cfg.DisableMetrics
    DisableRestore := if envConfig.DisableRestore then envConfig.DisableRestore
      else cfg.DisableRestore
    UnprotectedMetrics := if envConfig.UnprotectedMetrics
      then envConfig.UnprotectedMetrics else cfg.UnprotectedMetrics
    Notifications :=
      { Teams :=
        { Webhook := if 0 < envConfig.Notifications.Teams.Webhook.length
            then envConfig.Notifications.Teams.Webhook
            else cfg.Notifications.Teams.Webhook
          Events := if 0 < envConfig.Notifications.Teams.Events.length
            then envConfig.Notifications.Teams.Events
            else cfg.Notifications.Teams.Events } }
    S3 :=
      { DisableSSL := if envConfig.S3.DisableSSL then envConfig.S3.DisableSSL
          else cfg.S3.DisableSSL
        SkipSSLVerification := if envConfig.S3.SkipSSLVerification
          then envConfig.S3.SkipSSLVerification else cfg.S3.SkipSSLVerification
        ServiceType := if 0 < envConfig.S3.ServiceType.length
          then envConfig.S3.ServiceType else cfg.S3.ServiceType
        ServiceLabel := if 0 < envConfig.S3.ServiceLabel.length
          then envConfig.S3.ServiceLabel else cfg.S3.ServiceLabel
        ServiceName := if 0 < envConfig.S3.ServiceName.length
          then envConfig.S3.ServiceName else cfg.S3.ServiceName
        BucketName := if 0 < envConfig.S3.BucketName.length
          then envConfig.S3.BucketName else cfg.S3.BucketName
        EncryptionKey := if 0 < envConfig.S3.EncryptionKey.length
          then envConfig.S3.EncryptionKey else cfg.S3.EncryptionKey
        Host := if 0 < envConfig.S3.Host.length then envConfig.S3.Host
          else cfg.S3.Host
        AccessKey := if 0 < envConfig.S3.AccessKey.length then envConfig.S3.AccessKey
          else cfg.S3.AccessKey
        SecretKey := if 0 < envConfig.S3.SecretKey.length then envConfig.S3.SecretKey
          else cfg.S3.SecretKey }
    Services := mergeServices cfg.Services envConfig.Services
    Foreground := cfg.Foreground }

/-- The individual environment variables `new` consults besides the
JSON env config: BACKMAN_PORT (already through `strconv.Atoi`, 0 when
unset or unparsable), BACKMAN_USERNAME, BACKMAN_PASSWORD,
BACKMAN_ENCRYPTION_KEY, BACKMAN_TEAMS_WEBHOOK, BACKMAN_TEAMS_EVENTS. -/
structure EnvVars where
  backmanConfig : Option Config
  backmanPort : Int
  backmanUsername : String
  backmanPassword : String
  backmanEncryptionKey : String
  backmanTeamsWebhook : String
  backmanTeamsEvents : String
deriving Repr

/-- All individual env variables unset. -/
def EnvVars.zero : EnvVars :=
  { backmanConfig := none, backmanPort := 0, backmanUsername := ""
    backmanPassword := "", backmanEncryptionKey := "", backmanTeamsWebhook := ""
    backmanTeamsEvents := "" }

/-- The tail of `new` (src/config/config.go:241-278): fill the port
and log level when still missing, then let the individual credential
and notification env variables override whatever is set. -/
def applyLateEnv (cfg : Config) (vars : EnvVars) : Config :=
  let cfg := if cfg.Port = 0 then { cfg with Port := vars.backmanPort } else cfg
  let cfg := if cfg.LogLevel.length = 0 then { cfg with LogLevel := "info" } else cfg
  let cfg := if ¬ vars.backmanUsername = "" then
    { cfg with Username := vars.backmanUsername } else cfg
  let cfg := if ¬ vars.backmanPassword = "" then
    { cfg with Password := vars.backmanPassword } else cfg
  let cfg := if ¬ vars.backmanEncryptionKey = "" then
    { cfg with S3 := { cfg.S3 with EncryptionKey := vars.backmanEncryptionKey } }
    else cfg
  let cfg := if ¬ vars.backmanTeamsWebhook = "" then
    { cfg with Notifications :=
      { Teams := { cfg.Notifications.Teams with
          Webhook := vars.backmanTeamsWebhook } } } else cfg
  let cfg := if ¬ vars.backmanTeamsEvents = "" then
    { cfg with Notifications :=
      { Teams := { cfg.Notifications.Teams with
          Events := vars.backmanTeamsEvents.splitOn "," } } } else cfg
  cfg

/-- Embedding of `new` (src/config/config.go:74-281): start from the
zero config, overlay the config file's parsed contents if the file
exists, overlay the env-provided JSON config if set, then apply the
late defaults and individual env variables.  File reading and JSON
parsing are external; the function receives their results. -/
def new (fileConfig : Option Config) (vars : EnvVars) : Config :=
  let cfg := match fileConfig with
    | some c => c
    | none => Config.zero
  let cfg := match vars.backmanConfig with
    | some envConfig => mergeEnv cfg envConfig
    | none => cfg
  applyLateEnv cfg vars

end config

/-! ## UI handler (src/router/ui/handler.go) -/

namespace ui

/-- Byte strings as Go `[]byte`, each byte a `Nat` below 256 (the bound
is irrelevant to the properties proved). -/
abbrev Bytes := List Nat

/-- Model of Go `crypto/subtle.ConstantTimeCompare`: 0 when the
lengths differ, otherwise 1 exactly when OR-accumulating the XOR of
every byte pair yields 0. -/
def ConstantTimeCompare (x y : Bytes) : Nat :=
  if x.length = y.length then
    if (x.zip y).foldl (fun acc p => acc ||| (p.1 ^^^ p.2)) 0 = 0 then 1 else 0
  else 0

/-- Byte-loop iterations `ConstantTimeCompare` performs: none on a
length mismatch (it returns at once), one per byte otherwise. -/
def compareCost (x y : Bytes) : Nat :=
  if x.length = y.length then x.length else 0

/-- Embedding of the BasicAuth validator closure
(src/router/ui/handler.go:65-70): grant access iff
`ConstantTimeCompare(u, username) == 1 && ConstantTimeCompare(p, password) == 1`,
with Go's short-circuiting `&&`. -/
def basicAuthValidator (username password u p : Bytes) : Bool :=
  if ConstantTimeCompare u username = 1 then
    ConstantTimeCompare p password = 1
  else false

/-- Byte-loop iterations one validator call performs under Go's
short-circuiting `&&`: the password comparison runs only when the
username comparison returned 1. -/
def basicAuthCost (username password u p : Bytes) : Nat :=
  compareCost u username +
    (if ConstantTimeCompare u username = 1 then compareCost p password else 0)

/-- The handler's per-type service listing, `map[string][]config.Service`;
`none` models a nil map (src/router/ui/handler.go:16-18). -/
structure Handler where
  Services : Option (List (String × List config.Service))

/-- The template page (src/router/ui/handler.go:20-32), restricted to
the fields `ErrorHandler` and `newPage` write; the `Backup`/`Backups`
fields always keep their zero values on an error page and are omitted.
The error's timestamp is a `Nat` clock reading. -/
structure Page where
  Title : String
  Service : config.Service
  Services : Option (List (String × List config.Service))
  AllServices : Option (List (String × List config.Service))
  ErrorCode : Nat
  ErrorMessage : String
  ErrorTime : Nat
deriving DecidableEq

/-- Embedding of `newPage` (src/router/ui/handler.go:101-107). -/
def newPage (h : Handler) (title : String) : Page :=
  { Title := title
    Service := config.Service.zero
    Services := h.Services
    AllServices := h.Services
    ErrorCode := 0
    ErrorMessage := ""
    ErrorTime := 0 }

/-- A Go `error` as `ErrorHandler` inspects it: either an
`*echo.HTTPError` (whose `Message` the code asserts to a string) or
any other error. -/
inductive GoError where
  | http (Code : Nat) (Message : String)
  | generic (msg : String)

/-- Embedding of `ErrorHandler` (src/router/ui/handler.go:80-99):
default to 500/"Error", take code and message from an
`*echo.HTTPError`, build a fresh page, fill the error fields with the
current time, and blank `Services` and `AllServices` before
rendering. -/
def ErrorHandler (h : Handler) (err : GoError) (now : Nat) : Page :=
  let code := match err with
    | GoError.http c _ => c
    | GoError.generic _ => 500
  let message := match err with
    | GoError.http _ m => m
    | GoError.generic _ => "Error"
  let page := newPage h "Error"
  { page with
      ErrorCode := code
      ErrorMessage := message
      ErrorTime := now
      Services := none
      AllServices := none }

end ui
end Backman

/-! ## Claims C7 and C10 -/

namespace Backman
namespace config

theorem find?_filter_ne (m : List (String × Service)) (k n : String) (h : ¬ k = n) :
    (m.filter (fun e => ¬ e.1 = k)).find? (fun e => e.1 = n)
      = m.find? (fun e => e.1 = n) := by
  induction m with
  | nil => rfl
  | cons a as ih =>
      by_cases ha : a.1 = k
      · rw [List.filter_cons_of_neg (by simp [ha])]
        rw [ih, List.find?_cons_of_neg _ (by simp [ha, h])]
      · rw [List.filter_cons_of_pos (by simp [ha])]
        by_cases hn : a.1 = n
        · rw [List.find?_cons_of_pos _ (by simp [hn]), List.find?_cons_of_pos _ (by simp [hn])]
        · rw [List.find?_cons_of_neg _ (by simp [hn]), List.find?_cons_of_neg _ (by simp [hn])]
          exact ih

theorem mapGet_mapSet_same (m : List (String × Service)) (n : String) (s : Service) :
    mapGet (mapSet m n s) n = s := by
  simp [mapGet, mapSet]

theorem mapGet_mapSet_other (m : List (String × Service)) (k n : String) (s : Service)
    (h : ¬ k = n) :
    mapGet (mapSet m k s) n = mapGet m n := by
  simp only [mapGet, mapSet]
  rw [List.find?_cons_of_neg _ (by simp [h]), find?_filter_ne m k n h]

theorem mergeServices_notMem (entries : List (String × Service)) :
    ∀ m n, ¬ n ∈ entries.map Prod.fst →
      mapGet (mergeServices m entries) n = mapGet m n := by
  induction entries with
  | nil => intro m n _; rfl
  | cons p ps ih =>
      intro m n h
      simp only [List.map_cons, List.mem_cons, not_or] at h
      show mapGet (mergeServices (mapSet m p.1 (mergeService (mapGet m p.1) p.2)) ps) n
        = mapGet m n
      rw [ih _ n h.2, mapGet_mapSet_other _ _ _ _ (fun hc => h.1 hc.symm)]

theorem mergeServices_lookup (entries : List (String × Service)) :
    ∀ m n e, (n, e) ∈ entries → (entries.map Prod.fst).Nodup →
      mapGet (mergeServices m entries) n = mergeService (mapGet m n) e := by
  induction entries with
  | nil => intro m n e hmem _; cases hmem
  | cons p ps ih =>
      intro m n e hmem hnodup
      rw [List.map_cons, List.nodup_cons] at hnodup
      show mapGet (mergeServices (mapSet m p.1 (mergeService (mapGet m p.1) p.2)) ps) n
        = mergeService (mapGet m n) e
      rcases List.mem_cons.mp hmem with hhead | htail
      · have hn : p.1 = n := by rw [← hhead]
        have he : p.2 = e := by rw [← hhead]
        subst hn
        rw [mergeServices_notMem ps _ _ hnodup.1, mapGet_mapSet_same, he]
      · have hne : ¬ p.1 = n := by
          intro hc
          exact hnodup.1 (hc ▸ List.mem_map_of_mem Prod.fst htail)
        rw [ih _ n e htail hnodup.2, mapGet_mapSet_other _ _ _ _ hne]

/-- C7 as stated is false: a setting present in the environment config
does not always take precedence over the config-file value.
Concretely, with a file config carrying LoggingTimestamp=true and a
per-service timeout of two seconds, an environment config carrying
LoggingTimestamp=false and a timeout of exactly one second leaves both
file values in place. -/
theorem c7_counterexample :
    let fileCfg : Config := { Config.zero with
      LoggingTimestamp := true,
      Services := [("db1", { Service.zero with Timeout := 2000000000 })] }
    let envCfg : Config := { Config.zero with
      LoggingTimestamp := false,
      Services := [("db1", { Service.zero with Timeout := 1000000000 })] }
    let resolved := new (some fileCfg)
      { EnvVars.zero with backmanConfig := some envCfg }
    resolved.LoggingTimestamp = true
    ∧ (mapGet resolved.Services "db1").Timeout = 2000000000 := by
  intro fileCfg envCfg resolved
  constructor <;> rfl

/-- C7 (amended): configuration is resolved in layers — the zero-valued
defaults, then the config file, then the environment-variable overlay,
highest precedence last — but an environment setting overrides the
file value only when it is non-zero (non-empty string, positive
number, true boolean); a zero-valued environment setting leaves the
file value in place. -/
theorem c7_layered_resolution (fileCfg envCfg : Config) (vars : EnvVars)
    (hv : vars.backmanConfig = some envCfg) :
    new (some fileCfg) vars = applyLateEnv (mergeEnv fileCfg envCfg) vars
    ∧ (0 < envCfg.LogLevel.length →
        (mergeEnv fileCfg envCfg).LogLevel = envCfg.LogLevel)
    ∧ (0 < envCfg.Port → (mergeEnv fileCfg envCfg).Port = envCfg.Port)
    ∧ (envCfg.LoggingTimestamp = true →
        (mergeEnv fileCfg envCfg).LoggingTimestamp = true)
    ∧ (0 < envCfg.Username.length →
        (mergeEnv fileCfg envCfg).Username = envCfg.Username)
    ∧ (envCfg.LogLevel.length = 0 →
        (mergeEnv fileCfg envCfg).LogLevel = fileCfg.LogLevel)
    ∧ (envCfg.Port ≤ 0 → (mergeEnv fileCfg envCfg).Port = fileCfg.Port)
    ∧ (envCfg.LoggingTimestamp = false →
        (mergeEnv fileCfg envCfg).LoggingTimestamp = fileCfg.LoggingTimestamp) := by
  refine ⟨by simp [new, hv], ?_, ?_, ?_, ?_, ?_, ?_, ?_⟩
  · intro h; simp [mergeEnv, h]
  · intro h; simp [mergeEnv, h]
  · intro h; simp [mergeEnv, h]
  · intro h; simp [mergeEnv, h]
  · intro h; simp [mergeEnv, h]
  · intro h; simp only [mergeEnv]; rw [if_neg (by omega)]
  · intro h; simp [mergeEnv, h]

/-- Witness for the amended C7 at concrete configs: env LogLevel
"warn" (non-empty) wins, env Port 0 loses. -/
theorem c7_layered_resolution_witness :
    ({ EnvVars.zero with backmanConfig := some { Config.zero with LogLevel := "warn" } }
        : EnvVars).backmanConfig = some { Config.zero with LogLevel := "warn" }
    ∧ (new (some { Config.zero with LogLevel := "debug", Port := 7 })
          { EnvVars.zero with backmanConfig := some { Config.zero with LogLevel := "warn" } }
        = applyLateEnv
            (mergeEnv { Config.zero with LogLevel := "debug", Port := 7 }
              { Config.zero with LogLevel := "warn" })
            { EnvVars.zero with backmanConfig := some { Config.zero with LogLevel := "warn" } }
      ∧ (0 < ({ Config.zero with LogLevel := "warn" } : Config).LogLevel.length →
          (mergeEnv { Config.zero with LogLevel := "debug", Port := 7 }
            { Config.zero with LogLevel := "warn" }).LogLevel = "warn")
      ∧ (0 < ({ Config.zero with LogLevel := "warn" } : Config).Port →
          (mergeEnv { Config.zero with LogLevel := "debug", Port := 7 }
            { Config.zero with LogLevel := "warn" }).Port
            = ({ Config.zero with LogLevel := "warn" } : Config).Port)
      ∧ (({ Config.zero with LogLevel := "warn" } : Config).LoggingTimestamp = true →
          (mergeEnv { Config.zero with LogLevel := "debug", Port := 7 }
            { Config.zero with LogLevel := "warn" }).LoggingTimestamp = true)
      ∧ (0 < ({ Config.zero with LogLevel := "warn" } : Config).Username.length →
          (mergeEnv { Config.zero with LogLevel := "debug", Port := 7 }
            { Config.zero with LogLevel := "warn" }).Username
            = ({ Config.zero with LogLevel := "warn" } : Config).Username)
      ∧ (({ Config.zero with LogLevel := "warn" } : Config).LogLevel.length = 0 →
          (mergeEnv { Config.zero with LogLevel := "debug", Port := 7 }
            { Config.zero with LogLevel := "warn" }).LogLevel = "debug")
      ∧ (({ Config.zero with LogLevel := "warn" } : Config).Port ≤ 0 →
          (mergeEnv { Config.zero with LogLevel := "debug", Port := 7 }
            { Config.zero with LogLevel := "warn" }).Port = 7)
      ∧ (({ Config.zero with LogLevel := "warn" } : Config).LoggingTimestamp = false →
          (mergeEnv { Config.zero with LogLevel := "debug", Port := 7 }
            { Config.zero with LogLevel := "warn" }).LoggingTimestamp = false)) :=
  ⟨rfl, c7_layered_resolution { Config.zero with LogLevel := "debug", Port := 7 }
    { Config.zero with LogLevel := "warn" }
    { EnvVars.zero with backmanConfig := some { Config.zero with LogLevel := "warn" } }
    rfl⟩

/-- C10: the environment overlay never resets a setting to its zero
value: a boolean true after the config file stays true whatever the
env config says (DisableWeb globally, DirectS3 per service), an
env-provided per-service timeout is applied only when it exceeds one
second, and empty strings or non-positive numbers in the env config
never override file values (Username and Port globally, Schedule and
Retention.Days per service). -/
theorem c10_env_overlay_never_resets (cfg env : Config) (n : String) (e : Service)
    (hmem : (n, e) ∈ env.Services) (hnodup : (env.Services.map Prod.fst).Nodup) :
    (cfg.DisableWeb = true → (mergeEnv cfg env).DisableWeb = true)
    ∧ ((mapGet cfg.Services n).DirectS3 = true →
        (mapGet (mergeEnv cfg env).Services n).DirectS3 = true)
    ∧ (e.Timeout ≤ 1000000000 →
        (mapGet (mergeEnv cfg env).Services n).Timeout
          = (mapGet cfg.Services n).Timeout)
    ∧ (1000000000 < e.Timeout →
        (mapGet (mergeEnv cfg env).Services n).Timeout = e.Timeout)
    ∧ (env.Username.length = 0 → (mergeEnv cfg env).Username = cfg.Username)
    ∧ (env.Port ≤ 0 → (mergeEnv cfg env).Port = cfg.Port)
    ∧ (e.Schedule.length = 0 →
        (mapGet (mergeEnv cfg env).Services n).Schedule
          = (mapGet cfg.Services n).Schedule)
    ∧ (e.Retention.Days ≤ 0 →
        (mapGet (mergeEnv cfg env).Services n).Retention.Days
          = (mapGet cfg.Services n).Retention.Days) := by
  have hlookup : mapGet (mergeEnv cfg env).Services n
      = mergeService (mapGet cfg.Services n) e :=
    mergeServices_lookup env.Services cfg.Services n e hmem hnodup
  refine ⟨?_, ?_, ?_, ?_, ?_, ?_, ?_, ?_⟩
  · intro h; cases hdw : env.DisableWeb <;> simp [mergeEnv, h, hdw]
  · intro h; rw [hlookup]
    cases hds : e.DirectS3 <;> simp [mergeService, h, hds]
  · intro h; rw [hlookup]
    simp only [mergeService]; rw [if_neg (by omega)]
  · intro h; rw [hlookup]
    simp only [mergeService]; rw [if_pos h]
  · intro h; simp [mergeEnv, h]
  · intro h; simp only [mergeEnv]; rw [if_neg (by omega)]
  · intro h; rw [hlookup]; simp [mergeService, h]
  · intro h; rw [hlookup]
    simp only [mergeService]; rw [if_neg (by omega)]

/-- Witness for C10 at a concrete file config and env config: file has
DisableWeb=true and a service with DirectS3=true and a four-second
timeout; the env config sets DisableWeb=false, DirectS3=false, a
one-second timeout, an empty schedule and a zero retention — and
changes nothing. -/
theorem c10_env_overlay_never_resets_witness :
    let e : Service := { Service.zero with Timeout := 1000000000 }
    let cfg : Config := { Config.zero with
      DisableWeb := true,
      Services :=
        [("db1", { Service.zero with DirectS3 := true, Timeout := 4000000000 })] }
    let env : Config := { Config.zero with
      DisableWeb := false,
      Services := [("db1", e)] }
    ("db1", e) ∈ env.Services
    ∧ (env.Services.map Prod.fst).Nodup
    ∧ ((mergeEnv cfg env).DisableWeb = true
      ∧ (mapGet (mergeEnv cfg env).Services "db1").DirectS3 = true
      ∧ (mapGet (mergeEnv cfg env).Services "db1").Timeout = 4000000000) := by
  intro e cfg env
  refine ⟨by decide, by decide, ?_, ?_, ?_⟩
  · exact (c10_env_overlay_never_resets cfg env "db1" e (by decide) (by decide)).1
      (by decide)
  · exact (c10_env_overlay_never_resets cfg env "db1" e (by decide) (by decide)).2.1
      (by decide)
  · have h := (c10_env_overlay_never_resets cfg env "db1" e (by decide)
      (by decide)).2.2.1 (by decide)
    rw [h]; decide

end config
end Backman

/-! ## Claims C8 and C9 -/

namespace Backman
namespace ui

theorem or_eq_zero_iff_parts (a b : Nat) : a ||| b = 0 ↔ a = 0 ∧ b = 0 := by
  constructor
  · intro h
    have hb : ∀ i, (a ||| b).testBit i = false := by
      intro i; rw [h]; exact Nat.zero_testBit i
    constructor
    · apply Nat.eq_of_testBit_eq
      intro i
      have hi := hb i
      rw [Nat.testBit_or] at hi
      rcases Bool.or_eq_false_iff.mp hi with ⟨h1, _⟩
      rw [h1, Nat.zero_testBit]
    · apply Nat.eq_of_testBit_eq
      intro i
      have hi := hb i
      rw [Nat.testBit_or] at hi
      rcases Bool.or_eq_false_iff.mp hi with ⟨_, h2⟩
      rw [h2, Nat.zero_testBit]
  · rintro ⟨rfl, rfl⟩; rfl

theorem foldl_orxor_eq_zero (l : List (Nat × Nat)) :
    ∀ acc : Nat, l.foldl (fun acc p => acc ||| (p.1 ^^^ p.2)) acc = 0
      ↔ acc = 0 ∧ ∀ p ∈ l, p.1 = p.2 := by
  induction l with
  | nil => intro acc; simp
  | cons q qs ih =>
      intro acc
      rw [List.foldl_cons, ih, or_eq_zero_iff_parts]
      constructor
      · rintro ⟨⟨h1, h2⟩, h3⟩
        refine ⟨h1, ?_⟩
        intro p hp
        rcases List.mem_cons.mp hp with rfl | hp
        · exact Nat.xor_eq_zero.mp h2
        · exact h3 p hp
      · rintro ⟨h1, h2⟩
        exact ⟨⟨h1, Nat.xor_eq_zero.mpr (h2 q (List.mem_cons_self q qs))⟩,
          fun p hp => h2 p (List.mem_cons_of_mem q hp)⟩

theorem zip_forall_eq_iff (x : Bytes) : ∀ y : Bytes, x.length = y.length →
    ((∀ p ∈ x.zip y, p.1 = p.2) ↔ x = y) := by
  induction x with
  | nil =>
      intro y hlen
      cases y with
      | nil => simp
      | cons b bs => simp at hlen
  | cons a as ih =>
      intro y hlen
      cases y with
      | nil => simp at hlen
      | cons b bs =>
          simp only [List.zip_cons_cons, List.mem_cons]
          constructor
          · intro hall
            have hab : a = b := hall (a, b) (Or.inl rfl)
            have htail : as = bs := (ih bs (by simpa using hlen)).mp
              (fun p hp => hall p (Or.inr hp))
            rw [hab, htail]
          · intro heq
            cases heq
            intro p hp
            rcases hp with rfl | hp
            · rfl
            · exact (ih as rfl).mpr rfl p hp

theorem ConstantTimeCompare_eq_one_iff (x y : Bytes) :
    ConstantTimeCompare x y = 1 ↔ x = y := by
  unfold ConstantTimeCompare
  by_cases hlen : x.length = y.length
  · rw [if_pos hlen]
    by_cases hz : (x.zip y).foldl (fun acc p => acc ||| (p.1 ^^^ p.2)) 0 = 0
    · rw [if_pos hz]
      have hall := (foldl_orxor_eq_zero (x.zip y) 0).mp hz
      constructor
      · intro _
        exact (zip_forall_eq_iff x y hlen).mp hall.2
      · intro _; rfl
    · rw [if_neg hz]
      constructor
      · intro h; exact absurd h (by decide)
      · intro heq
        exact absurd ((foldl_orxor_eq_zero (x.zip y) 0).mpr
          ⟨rfl, (zip_forall_eq_iff x y hlen).mpr heq⟩) hz
  · rw [if_neg hlen]
    constructor
    · intro h; exact absurd h (by decide)
    · intro heq; exact absurd (congrArg List.length heq) hlen

/-- C8 as stated is false on its constant-time half: the validator's
short-circuiting `&&` skips the password comparison when the username
comparison fails, so the duration depends on where the supplied
credentials first differ.  With configured credentials
username=[1,2], password=[3,4]: a supplied pair first differing inside
the username ([9,2],[3,4]) costs 2 byte steps, while a pair first
differing inside the password ([1,2],[9,4]) costs 4 — both rejected,
different durations. -/
theorem c8_counterexample :
    basicAuthValidator [1, 2] [3, 4] [9, 2] [3, 4] = false
    ∧ basicAuthValidator [1, 2] [3, 4] [1, 2] [9, 4] = false
    ∧ basicAuthCost [1, 2] [3, 4] [9, 2] [3, 4] = 2
    ∧ basicAuthCost [1, 2] [3, 4] [1, 2] [9, 4] = 4
    ∧ ¬ basicAuthCost [1, 2] [3, 4] [9, 2] [3, 4]
        = basicAuthCost [1, 2] [3, 4] [1, 2] [9, 4] := by
  refine ⟨by decide, by decide, by decide, by decide, by decide⟩

/-- C8 (amended): the validator grants access iff both the supplied
username and password equal the configured ones; each individual
`ConstantTimeCompare` is constant-time in that its work depends only
on its inputs' lengths, never on their contents; but the two
comparisons are combined with a short-circuiting `&&`, so the
validator's total work is the username comparison alone when the
username mismatches and both comparisons when it matches — the
duration reveals whether the username matched. -/
theorem c8_basic_auth (username password u p : Bytes) :
    (basicAuthValidator username password u p = true ↔ (u = username ∧ p = password))
    ∧ (∀ u2 : Bytes, u2.length = u.length →
        compareCost u2 username = compareCost u username)
    ∧ (¬ u = username →
        basicAuthCost username password u p = compareCost u username)
    ∧ (u = username →
        basicAuthCost username password u p
          = compareCost u username + compareCost p password) := by
  refine ⟨?_, ?_, ?_, ?_⟩
  · constructor
    · intro h
      by_cases hu : ConstantTimeCompare u username = 1
      · simp only [basicAuthValidator, if_pos hu, decide_eq_true_eq] at h
        exact ⟨(ConstantTimeCompare_eq_one_iff u username).mp hu,
          (ConstantTimeCompare_eq_one_iff p password).mp h⟩
      · simp only [basicAuthValidator, if_neg hu] at h
        exact absurd h (by decide)
    · rintro ⟨hu, hp⟩
      have h1 : ConstantTimeCompare u username = 1 :=
        (ConstantTimeCompare_eq_one_iff u username).mpr hu
      have h2 : ConstantTimeCompare p password = 1 :=
        (ConstantTimeCompare_eq_one_iff p password).mpr hp
      simp [basicAuthValidator, h1, h2]
  · intro u2 hlen
    simp only [compareCost, hlen]
  · intro hne
    have hu : ¬ ConstantTimeCompare u username = 1 :=
      fun hc => hne ((ConstantTimeCompare_eq_one_iff u username).mp hc)
    simp [basicAuthCost, hu]
  · intro heq
    have hu : ConstantTimeCompare u username = 1 :=
      (ConstantTimeCompare_eq_one_iff u username).mpr heq
    simp [basicAuthCost, hu]

/-- Witness for the amended C8 at concrete credentials: with the right
username supplied, both comparisons run. -/
theorem c8_basic_auth_witness :
    ([1, 2] : Bytes) = [1, 2]
    ∧ basicAuthCost [1, 2] [3, 4] [1, 2] [9, 4]
        = compareCost [1, 2] [1, 2] + compareCost [9, 4] [3, 4] :=
  ⟨rfl, (c8_basic_auth [1, 2] [3, 4] [1, 2] [9, 4]).2.2.2 rfl⟩

/-- C9: the UI error handler never reveals service names: whatever
error it renders and whenever, the rendered page's `Services` and
`AllServices` fields are nil, and two handlers that differ only in
their `Services` map render identical error pages for the same error
at the same instant. -/
theorem c9_error_page_hides_services (h1 h2 : Handler) (err : GoError) (now : Nat) :
    ErrorHandler h1 err now = ErrorHandler h2 err now
    ∧ (ErrorHandler h1 err now).Services = none
    ∧ (ErrorHandler h1 err now).AllServices = none := by
  refine ⟨rfl, rfl, rfl⟩

end ui
end Backman
